import Mathlib

set_option linter.unusedVariables false

/-
Verification of the Pico-Logger in-memory log store and its gate,
shallowly embedded from src/pico_logger.h.

Modelling conventions:
- The C file's global state (logging_enabled, min_log_level, start_time,
  log_entries, log_capacity, log_count) becomes the structure LoggerState,
  threaded explicitly through every operation.  log_count is the length of
  log_entries (the C array holds exactly log_count live entries).
- Terminal output (printf) is modelled as a list of DisplayEvent values
  returned next to the new state.  A METRICS line is kept structured
  (message and the exact elapsed value as a rational) because its textual
  form is produced by floating-point printf formatting; log lines are kept
  as the full strings printf would produce.
- Environment inputs (the wall-clock string from strftime, the monotonic
  clock reading from clock_gettime, whether fopen succeeds, whether
  realloc/strdup succeed) are explicit parameters.
- add_log_entry is modelled twice: add_log_entry assumes allocation
  succeeds (the execution in which the process survives), and
  add_log_entry_alloc takes the two allocation outcomes as booleans and
  returns none when the C code would call exit(EXIT_FAILURE).
-/

/-- ANSI reset code KNRM from pico_logger.h. -/
def KNRM : String := "\x1B[0m"

/-- ANSI red KRED. -/
def KRED : String := "\x1B[31m"

/-- ANSI yellow KYEL. -/
def KYEL : String := "\x1B[33m"

/-- ANSI blue KBLU. -/
def KBLU : String := "\x1B[34m"

/-- ANSI magenta KMAG. -/
def KMAG : String := "\x1B[35m"

/-- The DebugLevel enum of pico_logger.h, in declaration order. -/
inductive DebugLevel where
  | info
  | warning
  | error
  | critical
deriving DecidableEq

/-- The integer value the C enum gives each level (INFO=0, WARNING=1,
ERROR=2, CRITICAL=3); the gate compares levels through these values. -/
def DebugLevel.toNat : DebugLevel → Nat
  | .info => 0
  | .warning => 1
  | .error => 2
  | .critical => 3

/-- The level_str chosen by the switch in log_message. -/
def level_str : DebugLevel → String
  | .info => "INFO"
  | .warning => "WARNING"
  | .error => "ERROR"
  | .critical => "CRITICAL"

/-- The color chosen by the switch in log_message. -/
def level_color : DebugLevel → String
  | .info => KBLU
  | .warning => KYEL
  | .error => KRED
  | .critical => KMAG

/-- A struct timespec value: seconds and nanoseconds. -/
structure Timespec where
  tv_sec : Int
  tv_nsec : Int
deriving DecidableEq

/-- The global state of pico_logger.h: logging_enabled, min_log_level,
start_time, and the entry store (log_entries with log_capacity; log_count
is log_entries.length). -/
structure LoggerState where
  logging_enabled : Bool
  min_log_level : DebugLevel
  start_time : Timespec
  log_entries : List String
  log_capacity : Nat
deriving DecidableEq

/-- The initial values of the globals: enabled, INFO, start_time {0},
NULL entry array of capacity 0. -/
def initialState : LoggerState :=
  { logging_enabled := true
    min_log_level := DebugLevel.info
    start_time := { tv_sec := 0, tv_nsec := 0 }
    log_entries := []
    log_capacity := 0 }

/-- One printf to standard output. -/
inductive DisplayEvent where
  | line (content : String)
  | metrics (message : String) (time_taken : Rat)
deriving DecidableEq

/-- Whether a display event is the METRICS elapsed-time line. -/
def DisplayEvent.isMetrics : DisplayEvent → Bool
  | .metrics _ _ => true
  | .line _ => false

/-- add_log_entry from pico_logger.h, on the execution where both
realloc and strdup succeed: grow the capacity when full (16 from 0,
otherwise doubled), then append a copy of the message. -/
def add_log_entry (s : LoggerState) (msg : String) : LoggerState :=
  if s.log_entries.length = s.log_capacity then
    let new_capacity := if s.log_capacity = 0 then 16 else s.log_capacity * 2
    { s with log_capacity := new_capacity, log_entries := s.log_entries ++ [msg] }
  else
    { s with log_entries := s.log_entries ++ [msg] }

/-- add_log_entry with the outcomes of the two allocations explicit:
grow_ok is whether realloc succeeds when growth is needed, dup_ok is
whether strdup succeeds.  none models exit(EXIT_FAILURE). -/
def add_log_entry_alloc (s : LoggerState) (msg : String)
    (grow_ok dup_ok : Bool) : Option LoggerState :=
  if s.log_entries.length = s.log_capacity then
    if grow_ok then
      let new_capacity := if s.log_capacity = 0 then 16 else s.log_capacity * 2
      let s1 := { s with log_capacity := new_capacity }
      if dup_ok then
        some { s1 with log_entries := s1.log_entries ++ [msg] }
      else
        none
    else
      none
  else
    if dup_ok then
      some { s with log_entries := s.log_entries ++ [msg] }
    else
      none

/-- free_log_entries from pico_logger.h: release every entry and the
array, leaving an empty store of capacity 0. -/
def free_log_entries (s : LoggerState) : LoggerState :=
  { s with log_entries := [], log_capacity := 0 }

/-- The plain persisted line snprintf builds in log_message
("[time] LEVEL [file:line] func: message", no color codes). -/
def full_log (time_buffer : String) (level : DebugLevel) (file : String)
    (ln : Int) (func msg : String) : String :=
  "[" ++ time_buffer ++ "] " ++ level_str level ++ " [" ++ file ++ ":"
    ++ toString ln ++ "] " ++ func ++ ": " ++ msg

/-- The colored line printf displays in log_message. -/
def display_line (time_buffer : String) (level : DebugLevel) (file : String)
    (ln : Int) (func msg : String) : String :=
  "[" ++ time_buffer ++ "] " ++ level_color level ++ level_str level ++ KNRM
    ++ " [" ++ file ++ ":" ++ toString ln ++ "] " ++ func ++ ": " ++ msg

/-- log_message from pico_logger.h.  time_buffer is the strftime result
and msg the vsnprintf-rendered user message, both environment inputs.
The gate returns early when logging is disabled or the level is below
min_log_level; otherwise one colored line is displayed and the plain
line is appended to the store. -/
def log_message (s : LoggerState) (level : DebugLevel)
    (time_buffer file : String) (ln : Int) (func msg : String) :
    LoggerState × List DisplayEvent :=
  if !s.logging_enabled || decide (level.toNat < s.min_log_level.toNat) then
    (s, [])
  else
    (add_log_entry s (full_log time_buffer level file ln func msg),
     [DisplayEvent.line (display_line time_buffer level file ln func msg)])

/-- The elapsed seconds computed in log_performance:
(end.tv_sec - start_time.tv_sec) + (end.tv_nsec - start_time.tv_nsec) / 1e9,
as an exact rational. -/
def elapsed_seconds (t0 t1 : Timespec) : Rat :=
  ((t1.tv_sec - t0.tv_sec : Int) : Rat)
    + ((t1.tv_nsec - t0.tv_nsec : Int) : Rat) / 1000000000

/-- log_performance from pico_logger.h.  now is the CLOCK_MONOTONIC
reading clock_gettime would produce and time_buffer the strftime string
for the LOG_ERROR path.  With a message: if start_time is nonzero,
display the METRICS line; otherwise LOG_ERROR("Start time not defined."),
which expands to log_message at ERROR level from pico_logger.h line 166
inside log_performance.  With no message: arm start_time. -/
def log_performance (s : LoggerState) (message : Option String)
    (now : Timespec) (time_buffer : String) : LoggerState × List DisplayEvent :=
  match message with
  | some msg =>
      if s.start_time.tv_nsec ≠ 0 ∨ s.start_time.tv_sec ≠ 0 then
        (s, [DisplayEvent.metrics msg (elapsed_seconds s.start_time now)])
      else
        log_message s DebugLevel.error time_buffer "pico_logger.h" 166
          "log_performance" "Start time not defined."
  | none => ({ s with start_time := now }, [])

/-- set_logging_enabled from pico_logger.h. -/
def set_logging_enabled (s : LoggerState) (enabled : Bool) : LoggerState :=
  { s with logging_enabled := enabled }

/-- set_minimum_log_level from pico_logger.h. -/
def set_minimum_log_level (s : LoggerState) (level : DebugLevel) : LoggerState :=
  { s with min_log_level := level }

/-- Outcome of save_log_file: the store afterwards, the chunks written
(fprintf writes entry ++ "\n" per entry; none when fopen failed and
nothing was written), and whether perror reported an error. -/
structure SaveResult where
  store : LoggerState
  written : Option (List String)
  error_reported : Bool
deriving DecidableEq

/-- save_log_file from pico_logger.h.  openable is whether fopen(path,"w")
succeeds.  On failure: perror and return, writing nothing.  On success:
one fprintf("%s\n") per entry, in order. -/
def save_log_file (s : LoggerState) (path : String) (openable : Bool) : SaveResult :=
  if openable then
    { store := s
      written := some (s.log_entries.map (fun m => m ++ "\n"))
      error_reported := false }
  else
    { store := s, written := none, error_reported := true }

/-- The store invariant: count never exceeds capacity. -/
def storeInv (s : LoggerState) : Prop :=
  s.log_entries.length ≤ s.log_capacity

/-- add_log_entry appends exactly its message to the entry list. -/
theorem add_log_entry_entries (s : LoggerState) (msg : String) :
    (add_log_entry s msg).log_entries = s.log_entries ++ [msg] := by
  unfold add_log_entry
  split <;> rfl

/-- add_log_entry leaves the gate and timer fields unchanged. -/
theorem add_log_entry_frame (s : LoggerState) (msg : String) :
    (add_log_entry s msg).logging_enabled = s.logging_enabled ∧
    (add_log_entry s msg).min_log_level = s.min_log_level ∧
    (add_log_entry s msg).start_time = s.start_time := by
  unfold add_log_entry
  split <;> exact ⟨rfl, rfl, rfl⟩

/-- Folding add_log_entry over a message list appends the whole list. -/
theorem foldl_add_log_entry_entries (msgs : List String) (s : LoggerState) :
    (msgs.foldl add_log_entry s).log_entries = s.log_entries ++ msgs := by
  induction msgs generalizing s with
  | nil => simp
  | cons m ms ih =>
      rw [List.foldl_cons, ih, add_log_entry_entries]
      simp

/-- When both allocations succeed, the oracle model agrees with
add_log_entry. -/
theorem add_log_entry_alloc_ok (s : LoggerState) (msg : String) :
    add_log_entry_alloc s msg true true = some (add_log_entry s msg) := by
  unfold add_log_entry_alloc add_log_entry
  split <;> rfl

/-- Claim C1: appending a sequence of N strings to an empty store and then
saving to an openable path writes exactly N chunks, in insertion order,
the i-th being the i-th appended text followed by a newline. -/
theorem C1_flush_writes_appended_lines (s : LoggerState) (msgs : List String)
    (path : String) (hempty : s.log_entries = []) :
    (save_log_file (msgs.foldl add_log_entry s) path true).written
        = some (msgs.map (fun m => m ++ "\n")) ∧
    ((save_log_file (msgs.foldl add_log_entry s) path true).written.getD []).length
        = msgs.length := by
  have h := foldl_add_log_entry_entries msgs s
  rw [hempty] at h
  constructor
  · simp [save_log_file, h]
  · simp [save_log_file, h]

/-- Witness for C1 at the spec's scenario: appending "A", "B", "C" to the
initial store and flushing yields the three chunks "A\n", "B\n", "C\n". -/
theorem C1_flush_writes_appended_lines_witness :
    initialState.log_entries = [] ∧
    ((save_log_file (["A", "B", "C"].foldl add_log_entry initialState) "P" true).written
        = some (["A", "B", "C"].map (fun m => m ++ "\n")) ∧
     ((save_log_file (["A", "B", "C"].foldl add_log_entry initialState) "P" true).written.getD []).length
        = (["A", "B", "C"] : List String).length) :=
  ⟨rfl, C1_flush_writes_appended_lines initialState ["A", "B", "C"] "P" rfl⟩

/-- Claim C2: capacity ≥ count is preserved by append, flush and clear,
and an append that finds the store full sets the capacity to 16 when it
was 0 and to twice its old value otherwise. -/
theorem C2_capacity_invariant_and_growth (s : LoggerState) (msg path : String)
    (b : Bool) (hinv : storeInv s) :
    storeInv (add_log_entry s msg) ∧
    storeInv (save_log_file s path b).store ∧
    storeInv (free_log_entries s) ∧
    (s.log_entries.length = s.log_capacity →
      (add_log_entry s msg).log_capacity
        = if s.log_capacity = 0 then 16 else s.log_capacity * 2) := by
  refine ⟨?_, ?_, ?_, ?_⟩
  · unfold storeInv add_log_entry at *
    split
    · rename_i hfull
      simp only
      split <;> simp_all <;> omega
    · rename_i hnotfull
      simp only [List.length_append, List.length_cons, List.length_nil]
      omega
  · unfold save_log_file
    split <;> exact hinv
  · unfold storeInv free_log_entries
    simp
  · intro hfull
    unfold add_log_entry
    rw [if_pos hfull]

/-- Witness for C2 at the initial store (count 0, capacity 0, full), with
one append: the invariant holds throughout and the capacity becomes 16. -/
theorem C2_capacity_invariant_and_growth_witness :
    storeInv initialState ∧
    (storeInv (add_log_entry initialState "x") ∧
     storeInv (save_log_file initialState "P" true).store ∧
     storeInv (free_log_entries initialState) ∧
     (initialState.log_entries.length = initialState.log_capacity →
       (add_log_entry initialState "x").log_capacity
         = if initialState.log_capacity = 0 then 16 else initialState.log_capacity * 2)) :=
  ⟨Nat.le.refl, C2_capacity_invariant_and_growth initialState "x" "P" true Nat.le.refl⟩

/-- Claim C3: with logging enabled and min_log_level = ERROR, a log call
at INFO or WARNING changes nothing and displays nothing, while a call at
ERROR or CRITICAL appends exactly its rendered line to the store and
displays exactly one line. -/
theorem C3_error_threshold_gating (s : LoggerState) (tb file : String)
    (ln : Int) (func msg : String) (hen : s.logging_enabled = true)
    (hmin : s.min_log_level = DebugLevel.error) :
    log_message s DebugLevel.info tb file ln func msg = (s, []) ∧
    log_message s DebugLevel.warning tb file ln func msg = (s, []) ∧
    ((log_message s DebugLevel.error tb file ln func msg).1.log_entries
        = s.log_entries ++ [full_log tb DebugLevel.error file ln func msg] ∧
     (log_message s DebugLevel.error tb file ln func msg).2
        = [DisplayEvent.line (display_line tb DebugLevel.error file ln func msg)]) ∧
    ((log_message s DebugLevel.critical tb file ln func msg).1.log_entries
        = s.log_entries ++ [full_log tb DebugLevel.critical file ln func msg] ∧
     (log_message s DebugLevel.critical tb file ln func msg).2
        = [DisplayEvent.line (display_line tb DebugLevel.critical file ln func msg)]) := by
  refine ⟨?_, ?_, ⟨?_, ?_⟩, ⟨?_, ?_⟩⟩ <;>
    simp [log_message, hen, hmin, DebugLevel.toNat, add_log_entry_entries]

/-- Witness for C3 at a concrete enabled state with min level ERROR. -/
theorem C3_error_threshold_gating_witness :
    (true = true ∧ DebugLevel.error = DebugLevel.error) ∧
    (log_message ⟨true, DebugLevel.error, ⟨0, 0⟩, [], 0⟩ DebugLevel.info "T" "f.c" 7 "main" "m"
        = (⟨true, DebugLevel.error, ⟨0, 0⟩, [], 0⟩, []) ∧
     log_message ⟨true, DebugLevel.error, ⟨0, 0⟩, [], 0⟩ DebugLevel.warning "T" "f.c" 7 "main" "m"
        = (⟨true, DebugLevel.error, ⟨0, 0⟩, [], 0⟩, []) ∧
     ((log_message ⟨true, DebugLevel.error, ⟨0, 0⟩, [], 0⟩ DebugLevel.error "T" "f.c" 7 "main" "m").1.log_entries
        = [] ++ [full_log "T" DebugLevel.error "f.c" 7 "main" "m"] ∧
      (log_message ⟨true, DebugLevel.error, ⟨0, 0⟩, [], 0⟩ DebugLevel.error "T" "f.c" 7 "main" "m").2
        = [DisplayEvent.line (display_line "T" DebugLevel.error "f.c" 7 "main" "m")]) ∧
     ((log_message ⟨true, DebugLevel.error, ⟨0, 0⟩, [], 0⟩ DebugLevel.critical "T" "f.c" 7 "main" "m").1.log_entries
        = [] ++ [full_log "T" DebugLevel.critical "f.c" 7 "main" "m"] ∧
      (log_message ⟨true, DebugLevel.error, ⟨0, 0⟩, [], 0⟩ DebugLevel.critical "T" "f.c" 7 "main" "m").2
        = [DisplayEvent.line (display_line "T" DebugLevel.critical "f.c" 7 "main" "m")])) :=
  ⟨⟨rfl, rfl⟩, C3_error_threshold_gating ⟨true, DebugLevel.error, ⟨0, 0⟩, [], 0⟩ "T" "f.c" 7 "main" "m" rfl rfl⟩

/-- Claim C4: an append either succeeds and the store gains exactly the
one new entry, or an allocation failed — realloc during growth (only
possible when the store was full) or strdup during duplication — and the
process terminates (modelled by none). -/
theorem C4_append_never_fails_silently (s : LoggerState) (msg : String)
    (grow_ok dup_ok : Bool) :
    (∃ s', add_log_entry_alloc s msg grow_ok dup_ok = some s' ∧
        s'.log_entries = s.log_entries ++ [msg]) ∨
    (add_log_entry_alloc s msg grow_ok dup_ok = none ∧
        ((s.log_entries.length = s.log_capacity ∧ grow_ok = false) ∨ dup_ok = false)) := by
  unfold add_log_entry_alloc
  split
  · rename_i hfull
    cases grow_ok with
    | false => exact Or.inr ⟨rfl, Or.inl ⟨hfull, rfl⟩⟩
    | true =>
        cases dup_ok with
        | false => exact Or.inr ⟨rfl, Or.inr rfl⟩
        | true => exact Or.inl ⟨_, rfl, rfl⟩
  · cases dup_ok with
    | false => exact Or.inr ⟨rfl, Or.inr rfl⟩
    | true => exact Or.inl ⟨_, rfl, rfl⟩

/-- Claim C6: when the path cannot be opened, save_log_file reports the
error, writes nothing, and returns with the store exactly as it was. -/
theorem C6_open_failure_recoverable (s : LoggerState) (path : String) :
    save_log_file s path false
      = { store := s, written := none, error_reported := true } := rfl

/-- Claim C7: with logging disabled every log call at every level is a
no-op (state and display untouched); re-enabling leaves the stored
entries intact and restores the min_log_level gating for later calls. -/
theorem C7_disable_and_reenable (s : LoggerState) (level : DebugLevel)
    (tb file : String) (ln : Int) (func msg : String)
    (hdis : s.logging_enabled = false) :
    log_message s level tb file ln func msg = (s, []) ∧
    (set_logging_enabled s true).log_entries = s.log_entries ∧
    (s.min_log_level.toNat ≤ level.toNat →
      (log_message (set_logging_enabled s true) level tb file ln func msg).1.log_entries
          = s.log_entries ++ [full_log tb level file ln func msg] ∧
      (log_message (set_logging_enabled s true) level tb file ln func msg).2
          = [DisplayEvent.line (display_line tb level file ln func msg)]) ∧
    (level.toNat < s.min_log_level.toNat →
      log_message (set_logging_enabled s true) level tb file ln func msg
          = (set_logging_enabled s true, [])) := by
  refine ⟨?_, rfl, ?_, ?_⟩
  · simp [log_message, hdis]
  · intro hge
    have hnot : ¬ level.toNat < s.min_log_level.toNat := Nat.not_lt.mpr hge
    constructor
    · simp [log_message, set_logging_enabled, hnot, add_log_entry_entries]
    · simp [log_message, set_logging_enabled, hnot]
  · intro hlt
    simp [log_message, set_logging_enabled, hlt]

/-- Witness for C7 at a disabled state, level WARNING above min INFO. -/
theorem C7_disable_and_reenable_witness :
    (LoggerState.logging_enabled ⟨false, DebugLevel.info, ⟨0, 0⟩, ["old"], 16⟩ = false) ∧
    (log_message ⟨false, DebugLevel.info, ⟨0, 0⟩, ["old"], 16⟩ DebugLevel.warning "T" "f.c" 3 "main" "m"
        = (⟨false, DebugLevel.info, ⟨0, 0⟩, ["old"], 16⟩, []) ∧
     (set_logging_enabled ⟨false, DebugLevel.info, ⟨0, 0⟩, ["old"], 16⟩ true).log_entries = ["old"] ∧
     ((DebugLevel.info).toNat ≤ (DebugLevel.warning).toNat →
       (log_message (set_logging_enabled ⟨false, DebugLevel.info, ⟨0, 0⟩, ["old"], 16⟩ true)
           DebugLevel.warning "T" "f.c" 3 "main" "m").1.log_entries
           = ["old"] ++ [full_log "T" DebugLevel.warning "f.c" 3 "main" "m"] ∧
       (log_message (set_logging_enabled ⟨false, DebugLevel.info, ⟨0, 0⟩, ["old"], 16⟩ true)
           DebugLevel.warning "T" "f.c" 3 "main" "m").2
           = [DisplayEvent.line (display_line "T" DebugLevel.warning "f.c" 3 "main" "m")]) ∧
     ((DebugLevel.warning).toNat < (DebugLevel.info).toNat →
       log_message (set_logging_enabled ⟨false, DebugLevel.info, ⟨0, 0⟩, ["old"], 16⟩ true)
           DebugLevel.warning "T" "f.c" 3 "main" "m"
           = (set_logging_enabled ⟨false, DebugLevel.info, ⟨0, 0⟩, ["old"], 16⟩ true, []))) :=
  ⟨rfl, C7_disable_and_reenable ⟨false, DebugLevel.info, ⟨0, 0⟩, ["old"], 16⟩
      DebugLevel.warning "T" "f.c" 3 "main" "m" rfl⟩

/-- Claim C8: save_log_file returns the store unchanged (same entries,
count and capacity), so appending once more and flushing again writes
every prior entry plus the new one. -/
theorem C8_flush_preserves_store (s : LoggerState) (path msg : String) (b : Bool) :
    (save_log_file s path b).store = s ∧
    (save_log_file (add_log_entry (save_log_file s path true).store msg) path true).written
        = some ((s.log_entries ++ [msg]).map (fun m => m ++ "\n")) := by
  constructor
  · unfold save_log_file
    split <;> rfl
  · simp [save_log_file, add_log_entry_entries]

/-- Claim C9: the written content is a function of the stored entries
alone, so two flushes with no store change in between — and generally any
two stores holding the same entries — produce identical contents. -/
theorem C9_flush_content_deterministic (s s2 : LoggerState) (path path2 : String)
    (hsame : s.log_entries = s2.log_entries) :
    (save_log_file (save_log_file s path true).store path true).written
        = (save_log_file s path true).written ∧
    (save_log_file s path true).written = (save_log_file s2 path2 true).written := by
  constructor
  · rfl
  · simp [save_log_file, hsame]

/-- Witness for C9 at two distinct states sharing the entry list. -/
theorem C9_flush_content_deterministic_witness :
    (LoggerState.log_entries ⟨true, DebugLevel.info, ⟨0, 0⟩, ["a", "b"], 16⟩
        = LoggerState.log_entries ⟨false, DebugLevel.error, ⟨1, 2⟩, ["a", "b"], 32⟩) ∧
    ((save_log_file (save_log_file ⟨true, DebugLevel.info, ⟨0, 0⟩, ["a", "b"], 16⟩ "P" true).store "P" true).written
        = (save_log_file ⟨true, DebugLevel.info, ⟨0, 0⟩, ["a", "b"], 16⟩ "P" true).written ∧
     (save_log_file ⟨true, DebugLevel.info, ⟨0, 0⟩, ["a", "b"], 16⟩ "P" true).written
        = (save_log_file ⟨false, DebugLevel.error, ⟨1, 2⟩, ["a", "b"], 32⟩ "Q" true).written) :=
  ⟨rfl, C9_flush_content_deterministic ⟨true, DebugLevel.info, ⟨0, 0⟩, ["a", "b"], 16⟩
      ⟨false, DebugLevel.error, ⟨1, 2⟩, ["a", "b"], 32⟩ "P" "Q" rfl⟩

/-- Claim C10: with the stored timestamp nonzero and a non-null message,
the performance report displays exactly the METRICS line, whatever the
enabled flag and minimum level are set to: the gate does not influence
the elapsed report. -/
theorem C10_metrics_ignores_gate (s : LoggerState) (e : Bool) (l : DebugLevel)
    (msg tb : String) (now : Timespec)
    (harmed : s.start_time.tv_nsec ≠ 0 ∨ s.start_time.tv_sec ≠ 0) :
    (log_performance { s with logging_enabled := e, min_log_level := l } (some msg) now tb).2
        = (log_performance s (some msg) now tb).2 ∧
    (log_performance s (some msg) now tb).2
        = [DisplayEvent.metrics msg (elapsed_seconds s.start_time now)] := by
  constructor
  · simp [log_performance, harmed]
  · simp [log_performance, harmed]

/-- Witness for C10: armed at 1s, reported at 3.5s, with the gate set to
disabled and CRITICAL; the METRICS line with elapsed 5/2 is displayed. -/
theorem C10_metrics_ignores_gate_witness :
    ((Timespec.tv_nsec ⟨1, 0⟩ ≠ 0 ∨ Timespec.tv_sec ⟨1, 0⟩ ≠ 0) ∧
     (log_performance { (⟨true, DebugLevel.info, ⟨1, 0⟩, [], 0⟩ : LoggerState) with
          logging_enabled := false, min_log_level := DebugLevel.critical }
        (some "f") ⟨3, 500000000⟩ "T").2
        = (log_performance (⟨true, DebugLevel.info, ⟨1, 0⟩, [], 0⟩ : LoggerState)
            (some "f") ⟨3, 500000000⟩ "T").2 ∧
     (log_performance (⟨true, DebugLevel.info, ⟨1, 0⟩, [], 0⟩ : LoggerState)
          (some "f") ⟨3, 500000000⟩ "T").2
        = [DisplayEvent.metrics "f" (elapsed_seconds ⟨1, 0⟩ ⟨3, 500000000⟩)]) :=
  ⟨Or.inr (by decide),
   C10_metrics_ignores_gate ⟨true, DebugLevel.info, ⟨1, 0⟩, [], 0⟩ false
      DebugLevel.critical "f" "T" ⟨3, 500000000⟩ (Or.inr (by decide))⟩

/-- Counterexample to claim C5 as stated: with logging disabled and the
timer never armed (start_time still {0}), a report call produces no
display output at all — in particular no ERROR-level log message — and
leaves the state untouched, because the "Start time not defined." path
goes through the gated log channel. -/
theorem C5_timer_protocol_counterexample :
    (⟨false, DebugLevel.info, ⟨0, 0⟩, [], 0⟩ : LoggerState).start_time = ⟨0, 0⟩ ∧
    log_performance ⟨false, DebugLevel.info, ⟨0, 0⟩, [], 0⟩ (some "f") ⟨5, 0⟩ "T"
      = (⟨false, DebugLevel.info, ⟨0, 0⟩, [], 0⟩, []) := by
  constructor
  · rfl
  · decide

/-- Claim C5 as amended: arming at a valid nonzero monotonic reading and
then reporting displays exactly the METRICS line with a non-negative
elapsed value; reporting when never armed displays no elapsed-time
output and is routed through the normal gated log channel at ERROR
level, so under every gate configuration exactly one ERROR line is
displayed and appended when logging is enabled and min_level is at most
ERROR, and the call is a complete no-op (gate suppression) otherwise;
in every configuration no METRICS event is displayed. -/
theorem C5_timer_protocol_amended (s : LoggerState) (msg tb tb2 : String)
    (t0 t1 now : Timespec)
    (h0a : 0 ≤ t0.tv_nsec) (h0b : t0.tv_nsec < 1000000000)
    (h1a : 0 ≤ t1.tv_nsec) (h1b : t1.tv_nsec < 1000000000)
    (harm : t0.tv_nsec ≠ 0 ∨ t0.tv_sec ≠ 0)
    (hmono : t0.tv_sec < t1.tv_sec ∨ (t0.tv_sec = t1.tv_sec ∧ t0.tv_nsec ≤ t1.tv_nsec))
    (hun : s.start_time = ⟨0, 0⟩) :
    ((log_performance (log_performance s none t0 tb).1 (some msg) t1 tb).2
        = [DisplayEvent.metrics msg (elapsed_seconds t0 t1)] ∧
     0 ≤ elapsed_seconds t0 t1) ∧
    (∀ e l,
      (e = true ∧ l.toNat ≤ (DebugLevel.error).toNat →
        (log_performance { s with logging_enabled := e, min_log_level := l }
            (some msg) now tb2).2
          = [DisplayEvent.line (display_line tb2 DebugLevel.error "pico_logger.h" 166
              "log_performance" "Start time not defined.")] ∧
        (log_performance { s with logging_enabled := e, min_log_level := l }
            (some msg) now tb2).1.log_entries
          = s.log_entries ++ [full_log tb2 DebugLevel.error "pico_logger.h" 166
              "log_performance" "Start time not defined."]) ∧
      (e = false ∨ (DebugLevel.error).toNat < l.toNat →
        log_performance { s with logging_enabled := e, min_log_level := l }
            (some msg) now tb2
          = ({ s with logging_enabled := e, min_log_level := l }, []))) ∧
    (∀ e l, ((log_performance { s with logging_enabled := e, min_log_level := l }
        (some msg) now tb2).2.all (fun ev => !ev.isMetrics)) = true) := by
  have h9 : (0 : Rat) < 1000000000 := by norm_num
  have hq : 0 ≤ elapsed_seconds t0 t1 := by
    unfold elapsed_seconds
    rcases hmono with hlt | ⟨heq, hle⟩
    · have hsd : (1 : Int) ≤ t1.tv_sec - t0.tv_sec := by omega
      have hnd : (-999999999 : Int) ≤ t1.tv_nsec - t0.tv_nsec := by omega
      have hsd' : (1 : Rat) ≤ ((t1.tv_sec - t0.tv_sec : Int) : Rat) := by exact_mod_cast hsd
      have hnd' : ((-999999999 : Int) : Rat) ≤ ((t1.tv_nsec - t0.tv_nsec : Int) : Rat) := by
        exact_mod_cast hnd
      have hdiv : ((-999999999 : Int) : Rat) / 1000000000
          ≤ ((t1.tv_nsec - t0.tv_nsec : Int) : Rat) / 1000000000 :=
        (div_le_div_iff_of_pos_right h9).mpr hnd'
      have hc : (-1 : Rat) ≤ ((-999999999 : Int) : Rat) / 1000000000 := by norm_num
      linarith
    · have hsd : t1.tv_sec - t0.tv_sec = 0 := by omega
      have hnd : (0 : Int) ≤ t1.tv_nsec - t0.tv_nsec := by omega
      have hsd' : ((t1.tv_sec - t0.tv_sec : Int) : Rat) = 0 := by exact_mod_cast hsd
      have hnd' : (0 : Rat) ≤ ((t1.tv_nsec - t0.tv_nsec : Int) : Rat) := by exact_mod_cast hnd
      have hdiv : (0 : Rat) ≤ ((t1.tv_nsec - t0.tv_nsec : Int) : Rat) / 1000000000 :=
        div_nonneg hnd' (le_of_lt h9)
      linarith
  refine ⟨⟨?_, hq⟩, ?_, ?_⟩
  · simp [log_performance, harm]
  · intro e l
    constructor
    · rintro ⟨he, hl⟩
      have hgate : ¬ ((DebugLevel.error).toNat < l.toNat) := Nat.not_lt.mpr hl
      constructor
      · simp [log_performance, log_message, hun, he, hgate]
      · simp [log_performance, log_message, hun, he, hgate, add_log_entry_entries]
    · rintro (he | hl)
      · simp [log_performance, log_message, hun, he]
      · simp [log_performance, log_message, hun, hl]
  · intro e l
    simp only [log_performance, hun]
    rw [if_neg (by simp)]
    unfold log_message
    split
    · rfl
    · simp [DisplayEvent.isMetrics]

/-- Witness for the amended C5: arm at 1s, report at 2.5s (elapsed 3/2),
and report-before-arming from the initial state, with the gate
characterization quantified over every configuration. -/
theorem C5_timer_protocol_amended_witness :
    ((0 : Int) ≤ (⟨1, 0⟩ : Timespec).tv_nsec ∧ (⟨1, 0⟩ : Timespec).tv_nsec < 1000000000 ∧
     (0 : Int) ≤ (⟨2, 500000000⟩ : Timespec).tv_nsec ∧
     (⟨2, 500000000⟩ : Timespec).tv_nsec < 1000000000 ∧
     ((⟨1, 0⟩ : Timespec).tv_nsec ≠ 0 ∨ (⟨1, 0⟩ : Timespec).tv_sec ≠ 0) ∧
     ((⟨1, 0⟩ : Timespec).tv_sec < (⟨2, 500000000⟩ : Timespec).tv_sec ∨
      ((⟨1, 0⟩ : Timespec).tv_sec = (⟨2, 500000000⟩ : Timespec).tv_sec ∧
       (⟨1, 0⟩ : Timespec).tv_nsec ≤ (⟨2, 500000000⟩ : Timespec).tv_nsec)) ∧
     initialState.start_time = ⟨0, 0⟩) ∧
    (((log_performance (log_performance initialState none ⟨1, 0⟩ "T1").1
          (some "work") ⟨2, 500000000⟩ "T1").2
        = [DisplayEvent.metrics "work" (elapsed_seconds ⟨1, 0⟩ ⟨2, 500000000⟩)] ∧
      0 ≤ elapsed_seconds ⟨1, 0⟩ ⟨2, 500000000⟩) ∧
     (∀ e l,
       (e = true ∧ l.toNat ≤ (DebugLevel.error).toNat →
         (log_performance { initialState with logging_enabled := e, min_log_level := l }
             (some "work") ⟨9, 9⟩ "T2").2
           = [DisplayEvent.line (display_line "T2" DebugLevel.error "pico_logger.h" 166
               "log_performance" "Start time not defined.")] ∧
         (log_performance { initialState with logging_enabled := e, min_log_level := l }
             (some "work") ⟨9, 9⟩ "T2").1.log_entries
           = initialState.log_entries ++ [full_log "T2" DebugLevel.error "pico_logger.h" 166
               "log_performance" "Start time not defined."]) ∧
       (e = false ∨ (DebugLevel.error).toNat < l.toNat →
         log_performance { initialState with logging_enabled := e, min_log_level := l }
             (some "work") ⟨9, 9⟩ "T2"
           = ({ initialState with logging_enabled := e, min_log_level := l }, []))) ∧
     (∀ e l, ((log_performance { initialState with logging_enabled := e, min_log_level := l }
        (some "work") ⟨9, 9⟩ "T2").2.all (fun ev => !ev.isMetrics)) = true)) :=
  ⟨⟨by decide, by decide, by decide, by decide, by decide, by decide, rfl⟩,
   C5_timer_protocol_amended initialState "work" "T1" "T2" ⟨1, 0⟩ ⟨2, 500000000⟩ ⟨9, 9⟩
     (by decide) (by decide) (by decide) (by decide) (by decide) (by decide) rfl⟩
